import Mathlib

/-!
# Verification of the Insights-Engine NL→SQL interpretation pipeline

Shallow embedding of the core interpretation pipeline of the repository:

* `src/backend/sql_templates.py` — `generate_sql_from_template`: normalizes the
  question (`question.lower().strip()`) and evaluates an ordered chain of
  regex-based rules, returning the first matching rule's rendered SQL template,
  or the sentinel comment string when no rule fires.  Each Python
  `if re.search(...)` block becomes one element of `ruleSet`
  (a function `List Char → Option String`; `none` means the block did not
  `return`, i.e. resolution falls through to the next block).
* `src/backend/utils.py` — `local_generate_sql`: tries the template resolver
  first and, guarded by Python truthiness (`if template_sql:`), falls back to a
  GPT-2 generation whose response we model by an oracle `Option String`
  (`none` = the model call raised).  `get_schema_metadata` performs database
  I/O; its outcome is modelled as an `Except String String` value where it is
  consumed (`ask_data`).
* `src/backend/main.py` — `ask_data`: fetches schema metadata, generates SQL,
  surfaces the sentinel as a message, otherwise executes the query (execution
  itself is outside the core and represented by `AskOutcome.result`).

Python regexes are embedded as hand-rolled scanning functions over `List Char`
that are faithful to `re.search`/`re.findall` semantics for the exact patterns
appearing in the source (leftmost match, greedy `\d+`/`\s*`, lazy `(.+?)`,
`.` not matching newline, `\s` on its ASCII set).
-/

set_option maxRecDepth 100000

namespace InsightsEngine

/-- Python's whitespace class (`\s` and `str.strip()`), ASCII part:
space, tab, newline, carriage return, vertical tab, form feed. -/
def pyIsSpace (c : Char) : Bool :=
  c = ' ' || c = '\t' || c = '\n' || c = '\r' || c = '\x0b' || c = '\x0c'

/-- Python's `\d` on ASCII: the decimal digits. -/
def pyIsDigit (c : Char) : Bool :=
  '0' ≤ c && c ≤ '9'

/-- `str.strip()`: drop leading and trailing whitespace. -/
def pyStrip (l : List Char) : List Char :=
  ((l.dropWhile pyIsSpace).reverse.dropWhile pyIsSpace).reverse

/-- `str.strip()` on `String`. -/
def pyStripS (s : String) : String :=
  String.mk (pyStrip s.data)

/-- `question.lower().strip()` — the normalization applied by
`generate_sql_from_template` before any matching (`Char.toLower` is the
ASCII case-folding that Python's `str.lower` performs on ASCII input). -/
def normalizeData (q : String) : List Char :=
  pyStrip (q.data.map Char.toLower)

/-- The resolver's normalization, as a `String → String` function. -/
def normalizeQ (q : String) : String :=
  String.mk (normalizeData q)

/-- Match a literal needle at the head of `s`; on success return the rest. -/
def litP : List Char → List Char → Option (List Char)
  | [], s => some s
  | _ :: _, [] => none
  | c :: cs, d :: ds => if c = d then litP cs ds else none

/-- Does `p` hold on some suffix of the input?  This is `re.search`'s
"try every start position" loop. -/
def scanB (p : List Char → Bool) : List Char → Bool
  | [] => p []
  | c :: cs => p (c :: cs) || scanB p cs

/-- First success of `p` over the suffixes of the input, scanning left to
right — `re.findall`'s leftmost-match rule (we only ever use match 0). -/
def scanFirst {α : Type} (p : List Char → Option α) : List Char → Option α
  | [] => p []
  | c :: cs =>
    match p (c :: cs) with
    | some x => some x
    | none => scanFirst p cs

/-- `re.search` of a plain literal pattern = substring containment. -/
def hasSub (needle : List Char) (l : List Char) : Bool :=
  scanB (fun t => (litP needle t).isSome) l

/-! ## The fourteen rule templates (verbatim from `sql_templates.py`) -/

def countUsersQuery : String :=
  "-- Count of users\nSELECT COUNT(*) AS total_users FROM users;"

def totalRevenueQuery : String :=
  "\n        -- Total revenue from all orders\n        SELECT SUM(o.quantity * p.price) AS total_revenue\n        FROM orders o\n        JOIN products p ON o.product_id = p.id;\n        "

def highestRevenueCategoryQuery : String :=
  "\n        -- Category with the highest revenue\n        SELECT p.category, SUM(o.quantity * p.price) AS revenue\n        FROM orders o\n        JOIN products p ON o.product_id = p.id\n        GROUP BY p.category\n        ORDER BY revenue DESC\n        LIMIT 1;\n        "

def topCustomersQuery : String :=
  "\n        -- Top 5 users by total spending\n        SELECT u.name, SUM(o.quantity * p.price) AS total_spent\n        FROM orders o\n        JOIN users u ON o.user_id = u.id\n        JOIN products p ON o.product_id = p.id\n        GROUP BY u.id\n        ORDER BY total_spent DESC\n        LIMIT 5;\n        "

def popularProductsQuery : String :=
  "\n        -- Top selling products by quantity\n        SELECT p.name AS product_name, SUM(o.quantity) AS total_sold\n        FROM orders o\n        JOIN products p ON o.product_id = p.id\n        GROUP BY p.id\n        ORDER BY total_sold DESC\n        LIMIT 5;\n        "

def revenueOverTimeQuery : String :=
  "\n        -- Daily revenue trend\n        SELECT DATE(o.order_date) AS day, SUM(o.quantity * p.price) AS revenue\n        FROM orders o\n        JOIN products p ON o.product_id = p.id\n        GROUP BY day\n        ORDER BY day;\n        "

def ordersPerDayQuery : String :=
  "\n        -- Orders per day\n        SELECT DATE(order_date) AS day, COUNT(*) AS order_count\n        FROM orders\n        GROUP BY day\n        ORDER BY day;\n        "

def monthlyRevenueQuery : String :=
  "\n        -- Monthly revenue trend\n        SELECT DATE_FORMAT(order_date, \x27%Y-%m\x27) AS month, SUM(o.quantity * p.price) AS revenue\n        FROM orders o\n        JOIN products p ON o.product_id = p.id\n        GROUP BY month\n        ORDER BY month;\n        "

/-- The f-string template of the quantity-threshold rule. -/
def quantityTemplate (n : String) : String :=
  "\n            -- Orders with quantity greater than " ++ n ++
  "\n            SELECT o.id AS order_id, p.name AS product_name, o.quantity\n            FROM orders o\n            JOIN products p ON o.product_id = p.id\n            WHERE o.quantity > " ++ n ++ ";\n            "

def compareUsersQuery : String :=
  "\n        -- Number of orders by user\n        SELECT u.name, COUNT(o.id) AS total_orders\n        FROM users u\n        JOIN orders o ON u.id = o.user_id\n        GROUP BY u.id\n        ORDER BY total_orders DESC;\n        "

/-- The f-string template of the users-with-more-than-N-orders rule. -/
def moreThanTemplate (n : String) : String :=
  "\n            -- Users with more than " ++ n ++
  " orders\n            SELECT u.name, COUNT(o.id) AS total_orders\n            FROM users u\n            JOIN orders o ON u.id = o.user_id\n            GROUP BY u.id\n            HAVING total_orders > " ++ n ++ ";\n            "

/-- The f-string template of the date-range rule (the captures are
`.strip()`ped by the source before interpolation). -/
def betweenTemplate (s e : String) : String :=
  "\n            -- Orders between " ++ s ++ " and " ++ e ++
  "\n            SELECT o.id AS order_id, u.name AS user_name, p.name AS product_name, o.quantity, o.order_date\n            FROM orders o\n            JOIN users u ON o.user_id = u.id\n            JOIN products p ON o.product_id = p.id\n            WHERE o.order_date BETWEEN \x27" ++ s ++ "\x27 AND \x27" ++ e ++ "\x27;\n            "

def ordersByCategoryQuery : String :=
  "\n        -- Number of orders per product category\n        SELECT p.category, COUNT(o.id) AS total_orders\n        FROM orders o\n        JOIN products p ON o.product_id = p.id\n        GROUP BY p.category;\n        "

def usersBySignupQuery : String :=
  "\n        -- New users by signup date\n        SELECT DATE(created_at) AS signup_date, COUNT(*) AS new_users\n        FROM users\n        GROUP BY signup_date\n        ORDER BY signup_date;\n        "

/-- `return "-- No matching SQL template found for the question."` — the
NoMatch sentinel. -/
def noMatchSentinel : String :=
  "-- No matching SQL template found for the question."

/-! ## Rule recognition conditions (the `re.search` patterns) -/

/-- `\s+` followed by the literal `users` (the tail of pattern 1); the next
character after the run must open `users`, so greedy whitespace consumption
is exact. -/
def wsThenUsers (rest : List Char) : Bool :=
  match rest with
  | [] => false
  | c :: cs =>
    pyIsSpace c && (litP "users".data ((c :: cs).dropWhile pyIsSpace)).isSome

/-- Pattern 1 at one position: `(how many|number of)\s+users`. -/
def matchCountUsersAt (s : List Char) : Bool :=
  match litP "how many".data s with
  | some rest => wsThenUsers rest
  | none =>
    match litP "number of".data s with
    | some rest => wsThenUsers rest
    | none => false

/-- `re.search(r"(how many|number of)\s+users", q)`. -/
def rCountUsers (q : List Char) : Bool := scanB matchCountUsersAt q

/-- `re.search(r"total revenue", q)`. -/
def rTotalRevenue (q : List Char) : Bool := hasSub "total revenue".data q

/-- Pattern `(highest|top).*revenue.*category` at one position; `.` does not
match a newline, so the whole tail of the match lives in the newline-free
region that follows the alternation. -/
def matchHighRevCatAt (s : List Char) : Bool :=
  match
    (match litP "highest".data s with
     | some rest => some rest
     | none => litP "top".data s) with
  | some rest =>
    let region := rest.takeWhile (fun c => !(c = '\n'))
    scanB
      (fun t =>
        match litP "revenue".data t with
        | some u => scanB (fun v => (litP "category".data v).isSome) u
        | none => false)
      region
  | none => false

/-- `re.search(r"(highest|top).*revenue.*category", q) or
re.search(r"which category has the highest revenue", q)`. -/
def rHighestRevenueCategory (q : List Char) : Bool :=
  scanB matchHighRevCatAt q ||
    hasSub "which category has the highest revenue".data q

/-- Pattern `top.*(customers|users)` at one position. -/
def matchTopCustomersAt (s : List Char) : Bool :=
  match litP "top".data s with
  | some rest =>
    let region := rest.takeWhile (fun c => !(c = '\n'))
    scanB
      (fun t =>
        (litP "customers".data t).isSome || (litP "users".data t).isSome)
      region
  | none => false

/-- `re.search(r"top.*(customers|users)", q)`. -/
def rTopCustomers (q : List Char) : Bool := scanB matchTopCustomersAt q

/-- `re.search(r"(most popular|top selling) products?", q)`: the trailing
`s?` is optional, so a match exists iff the pattern without it occurs. -/
def rPopularProducts (q : List Char) : Bool :=
  hasSub "most popular product".data q || hasSub "top selling product".data q

/-- `re.search(r"revenue over time", q)`. -/
def rRevenueOverTime (q : List Char) : Bool := hasSub "revenue over time".data q

/-- `re.search(r"orders per day", q)`. -/
def rOrdersPerDay (q : List Char) : Bool := hasSub "orders per day".data q

/-- `re.search(r"monthly revenue", q)`. -/
def rMonthlyRevenue (q : List Char) : Bool := hasSub "monthly revenue".data q

/-- Pattern 9 at one position: `with quantity\s+>\s*\d+` (the optional group
`(orders\s+)?` cannot affect whether a search match exists).  The greedy
`\s+`/`\s*` runs are followed by non-whitespace tokens, so consuming the
maximal run is exact. -/
def matchQuantityAt (s : List Char) : Bool :=
  match litP "with quantity".data s with
  | some rest =>
    match rest with
    | [] => false
    | c :: cs =>
      pyIsSpace c &&
        (match (c :: cs).dropWhile pyIsSpace with
         | [] => false
         | d :: ds =>
           d = '>' &&
             (match ds.dropWhile pyIsSpace with
              | [] => false
              | e :: _ => pyIsDigit e))
  | none => false

/-- `re.search(r"(orders\s+)?with quantity\s+>\s*\d+", q)`. -/
def rQuantityFilter (q : List Char) : Bool := scanB matchQuantityAt q

/-- One position of `re.findall(r"quantity\s*>\s*(\d+)", q)`: the literal,
the greedy whitespace runs, and the greedy (maximal) digit capture. -/
def quantityCapAt (s : List Char) : Option (List Char) :=
  match litP "quantity".data s with
  | some rest =>
    match rest.dropWhile pyIsSpace with
    | [] => none
    | d :: ds =>
      if d = '>' then
        let num := (ds.dropWhile pyIsSpace).takeWhile pyIsDigit
        if num.isEmpty then none else some num
      else none
  | none => none

/-- First capture of `re.findall(r"quantity\s*>\s*(\d+)", q)`:
leftmost full match, greedy digit run. -/
def extractQuantityNum (q : List Char) : Option (List Char) :=
  scanFirst quantityCapAt q

/-- `re.search(r"compare users by number of orders", q) or
re.search(r"users by order count", q)`. -/
def rCompareUsers (q : List Char) : Bool :=
  hasSub "compare users by number of orders".data q ||
    hasSub "users by order count".data q

/-- Pattern `users.*more than \d+ orders` at one position. -/
def matchMoreThanAt (s : List Char) : Bool :=
  match litP "users".data s with
  | some rest =>
    let region := rest.takeWhile (fun c => !(c = '\n'))
    scanB
      (fun t =>
        match litP "more than ".data t with
        | some u =>
          !(u.takeWhile pyIsDigit).isEmpty &&
            (litP " orders".data (u.dropWhile pyIsDigit)).isSome
        | none => false)
      region
  | none => false

/-- `re.search(r"users.*more than \d+ orders", q)`. -/
def rUsersMoreThan (q : List Char) : Bool := scanB matchMoreThanAt q

/-- First capture of `re.findall(r"more than (\d+)", q)`. -/
def extractMoreThanNum (q : List Char) : Option (List Char) :=
  scanFirst
    (fun s =>
      match litP "more than ".data s with
      | some rest =>
        let num := rest.takeWhile pyIsDigit
        if num.isEmpty then none else some num
      | none => none)
    q

/-- Pattern `orders.*between .* and .*` at one position. -/
def matchBetweenAt (s : List Char) : Bool :=
  match litP "orders".data s with
  | some rest =>
    let region := rest.takeWhile (fun c => !(c = '\n'))
    scanB
      (fun t =>
        match litP "between ".data t with
        | some u => scanB (fun v => (litP " and ".data v).isSome) u
        | none => false)
      region
  | none => false

/-- `re.search(r"orders.*between .* and .*", q)`. -/
def rOrdersBetween (q : List Char) : Bool := scanB matchBetweenAt q

/-- Backtracking for `(.+?) and (.+)` after `between `: the lazy first group
grows one (non-newline) character at a time; at each size we try the literal
` and ` and then the greedy, nonempty second group (all remaining characters
up to a newline). -/
def betweenAux : List Char → List Char → Option (List Char × List Char)
  | _, [] => none
  | g1rev, c :: cs =>
    if c = '\n' then none
    else
      match litP " and ".data cs with
      | some after =>
        let g2 := after.takeWhile (fun d => !(d = '\n'))
        if g2.isEmpty then betweenAux (c :: g1rev) cs
        else some ((c :: g1rev).reverse, g2)
      | none => betweenAux (c :: g1rev) cs

/-- First match of `re.findall(r"between (.+?) and (.+)", q)`. -/
def extractBetween (q : List Char) : Option (List Char × List Char) :=
  scanFirst
    (fun s =>
      match litP "between ".data s with
      | some rest => betweenAux [] rest
      | none => none)
    q

/-- `re.search(r"orders by category", q)`. -/
def rOrdersByCategory (q : List Char) : Bool := hasSub "orders by category".data q

/-- `re.search(r"users by signup date", q)`. -/
def rUsersBySignup (q : List Char) : Bool := hasSub "users by signup date".data q

/-! ## The ordered rule set and the resolver -/

def ruleCountUsers (q : List Char) : Option String :=
  if rCountUsers q then some countUsersQuery else none

def ruleTotalRevenue (q : List Char) : Option String :=
  if rTotalRevenue q then some totalRevenueQuery else none

def ruleHighestRevenueCategory (q : List Char) : Option String :=
  if rHighestRevenueCategory q then some highestRevenueCategoryQuery else none

def ruleTopCustomers (q : List Char) : Option String :=
  if rTopCustomers q then some topCustomersQuery else none

def rulePopularProducts (q : List Char) : Option String :=
  if rPopularProducts q then some popularProductsQuery else none

def ruleRevenueOverTime (q : List Char) : Option String :=
  if rRevenueOverTime q then some revenueOverTimeQuery else none

def ruleOrdersPerDay (q : List Char) : Option String :=
  if rOrdersPerDay q then some ordersPerDayQuery else none

def ruleMonthlyRevenue (q : List Char) : Option String :=
  if rMonthlyRevenue q then some monthlyRevenueQuery else none

/-- The quantity rule: if the recognition condition matches but `re.findall`
captures nothing, the block does not return and resolution falls through
(`none`). -/
def ruleQuantityFilter (q : List Char) : Option String :=
  if rQuantityFilter q then
    (extractQuantityNum q).map (fun n => quantityTemplate (String.mk n))
  else none

def ruleCompareUsers (q : List Char) : Option String :=
  if rCompareUsers q then some compareUsersQuery else none

def ruleUsersMoreThan (q : List Char) : Option String :=
  if rUsersMoreThan q then
    (extractMoreThanNum q).map (fun n => moreThanTemplate (String.mk n))
  else none

def ruleOrdersBetween (q : List Char) : Option String :=
  if rOrdersBetween q then
    (extractBetween q).map
      (fun p => betweenTemplate (pyStripS (String.mk p.1)) (pyStripS (String.mk p.2)))
  else none

def ruleOrdersByCategory (q : List Char) : Option String :=
  if rOrdersByCategory q then some ordersByCategoryQuery else none

def ruleUsersBySignup (q : List Char) : Option String :=
  if rUsersBySignup q then some usersBySignupQuery else none

/-- The fourteen `if re.search(...)` blocks of `generate_sql_from_template`,
in their declared order. -/
def ruleSet : List (List Char → Option String) :=
  [ruleCountUsers, ruleTotalRevenue, ruleHighestRevenueCategory,
   ruleTopCustomers, rulePopularProducts, ruleRevenueOverTime,
   ruleOrdersPerDay, ruleMonthlyRevenue, ruleQuantityFilter,
   ruleCompareUsers, ruleUsersMoreThan, ruleOrdersBetween,
   ruleOrdersByCategory, ruleUsersBySignup]

/-- First rule that returns: the early-return semantics of the `if` chain. -/
def firstSome : List (List Char → Option String) → List Char → Option String
  | [], _ => none
  | r :: rs, q =>
    match r q with
    | some t => some t
    | none => firstSome rs q

/-- `generate_sql_from_template` (`sql_templates.py`): normalize once, try the
rules in order, and fall back to the sentinel comment. -/
def generate_sql_from_template (question : String) : String :=
  match firstSome ruleSet (normalizeData question) with
  | some t => t
  | none => noMatchSentinel

/-! ## `utils.py`: the pipeline with the GPT-2 fallback -/

/-- `return "SELECT * FROM orders LIMIT 10;"` — the fixed default query. -/
def defaultQuery : String := "SELECT * FROM orders LIMIT 10;"

/-- The extraction loop of `local_generate_sql`: take the last
`"SQL:"`-segment of the model response, strip it, split into lines, and
return the first stripped line whose lower-cased text contains `select`. -/
def extractSqlLine (response : String) : Option String :=
  if hasSub "SQL:".data response.data then
    let seg := pyStripS ((response.splitOn "SQL:").getLastD response)
    let lines := seg.splitOn "\n"
    (lines.find? (fun l => hasSub "select".data (l.data.map Char.toLower))).map pyStripS
  else none

/-- The `try`/`except` around the GPT-2 call: `resp = none` models the model
call raising (the `except` path), in which case — like extraction failure —
the fixed default query is returned. -/
def gpt2Fallback (resp : Option String) : String :=
  match resp with
  | none => defaultQuery
  | some response =>
    match extractSqlLine response with
    | some line => line
    | none => defaultQuery

/-- `local_generate_sql` (`utils.py`): template match first; the fallback runs
only when the template result is falsy (the empty string).  `resp` is the
oracle for the GPT-2 response to the prompt built from `question` and
`schema`. -/
def local_generate_sql (resp : Option String) (question schema : String) : String :=
  let template_sql := generate_sql_from_template question
  if template_sql = "" then gpt2Fallback resp else template_sql

/-! ## `main.py`: the `/ask` endpoint -/

/-- Outcome of `ask_data`: the `except` branch, the sentinel-message branch,
or the execute-and-return-rows branch (execution itself is external; we
record the SQL that would be executed). -/
inductive AskOutcome where
  | errorResp (e : String)
  | message (m : String)
  | result (sql : String)
deriving DecidableEq, Repr

/-- `ask_data` (`main.py`): `get_schema_metadata()` is invoked first — its
outcome is the `schemaResult` argument; a failure there is caught by the
surrounding `try` and surfaced as an error response for every question. -/
def ask_data (schemaResult : Except String String) (resp : Option String)
    (question : String) : AskOutcome :=
  match schemaResult with
  | .error e => .errorResp e
  | .ok schema =>
    let sql := local_generate_sql resp question schema
    if (litP "-- No matching SQL".data (pyStrip sql.data)).isSome then
      .message (pyStripS sql)
    else
      .result sql

/-! ## General lemmas about the matching combinators -/

lemma litP_self_append (xs ys : List Char) : litP xs (xs ++ ys) = some ys := by
  induction xs with
  | nil => rfl
  | cons c cs ih => simp [litP, ih]

lemma scanB_iff (p : List Char → Bool) (l : List Char) :
    scanB p l = true ↔ ∃ t, t <:+ l ∧ p t = true := by
  induction l with
  | nil => simp [scanB]
  | cons c cs ih =>
    simp only [scanB, Bool.or_eq_true, ih]
    constructor
    · rintro (h | ⟨t, ht, hp⟩)
      · exact ⟨c :: cs, List.suffix_refl _, h⟩
      · exact ⟨t, ht.trans (List.suffix_cons c cs), hp⟩
    · rintro ⟨t, ht, hp⟩
      rcases List.suffix_cons_iff.mp ht with h | h
      · subst h; exact Or.inl hp
      · exact Or.inr ⟨t, h, hp⟩

lemma scanB_eq_false (p : List Char → Bool) (l : List Char)
    (h : ∀ t, t <:+ l → p t = false) : scanB p l = false := by
  rcases hb : scanB p l with _ | _
  · rfl
  · rcases (scanB_iff p l).mp hb with ⟨t, ht, hp⟩
    rw [h t ht] at hp
    exact absurd hp (by simp)

lemma scanFirst_isSome_iff {α : Type} (p : List Char → Option α) (l : List Char) :
    (scanFirst p l).isSome = true ↔ ∃ t, t <:+ l ∧ (p t).isSome = true := by
  induction l with
  | nil =>
    simp only [scanFirst]
    constructor
    · intro h; exact ⟨[], List.suffix_refl _, h⟩
    · rintro ⟨t, ht, hp⟩
      rw [List.suffix_nil.mp ht] at hp
      exact hp
  | cons c cs ih =>
    simp only [scanFirst]
    rcases hp : p (c :: cs) with _ | x
    · simp only [ih]
      constructor
      · rintro ⟨t, ht, hpt⟩
        exact ⟨t, ht.trans (List.suffix_cons c cs), hpt⟩
      · rintro ⟨t, ht, hpt⟩
        rcases List.suffix_cons_iff.mp ht with h | h
        · subst h; rw [hp] at hpt; exact absurd hpt (by simp)
        · exact ⟨t, h, hpt⟩
    · simp only [Option.isSome_some, true_iff]
      exact ⟨c :: cs, List.suffix_refl _, by rw [hp]; rfl⟩

lemma firstSome_eq_some_mem {rs : List (List Char → Option String)}
    {q : List Char} {t : String} (h : firstSome rs q = some t) :
    ∃ r ∈ rs, r q = some t := by
  induction rs with
  | nil => exact absurd h (by simp [firstSome])
  | cons r rest ih =>
    rw [firstSome] at h
    rcases hr : r q with _ | u
    · rw [hr] at h
      rcases ih h with ⟨r', hm, he⟩
      exact ⟨r', List.mem_cons_of_mem _ hm, he⟩
    · rw [hr] at h
      exact ⟨r, List.mem_cons_self _ _, by rw [hr]; exact h⟩

lemma firstSome_append_none {xs ys : List (List Char → Option String)}
    {q : List Char} (h : firstSome xs q = none) :
    firstSome (xs ++ ys) q = firstSome ys q := by
  induction xs with
  | nil => rfl
  | cons r rest ih =>
    rw [firstSome] at h
    rcases hr : r q with _ | u
    · rw [hr] at h
      rw [List.cons_append, firstSome, hr]
      exact ih h
    · rw [hr] at h; exact absurd h (by simp)

lemma firstSome_append_some {xs ys : List (List Char → Option String)}
    {q : List Char} {t : String} (h : firstSome xs q = some t) :
    firstSome (xs ++ ys) q = some t := by
  induction xs with
  | nil => exact absurd h (by simp [firstSome])
  | cons r rest ih =>
    rw [firstSome] at h
    rw [List.cons_append, firstSome]
    rcases hr : r q with _ | u
    · rw [hr] at h; exact ih h
    · rw [hr] at h; exact h

/-! ## Lemmas about normalization -/

lemma toNat_ofNat_of_valid {n : Nat} (h : n.isValidChar) :
    (Char.ofNat n).toNat = n := by
  rw [Char.ofNat, dif_pos h]
  rfl

lemma toLower_upper {c : Char} (h : c.toNat ≥ 65 ∧ c.toNat ≤ 90) :
    c.toLower = Char.ofNat (c.toNat + 32) := by
  show (if c.toNat ≥ 65 ∧ c.toNat ≤ 90 then Char.ofNat (c.toNat + 32) else c) = _
  exact if_pos h

lemma toLower_other {c : Char} (h : ¬(c.toNat ≥ 65 ∧ c.toNat ≤ 90)) :
    c.toLower = c := by
  show (if c.toNat ≥ 65 ∧ c.toNat ≤ 90 then Char.ofNat (c.toNat + 32) else c) = _
  exact if_neg h

lemma toLower_idem (c : Char) : Char.toLower (Char.toLower c) = Char.toLower c := by
  by_cases h : c.toNat ≥ 65 ∧ c.toNat ≤ 90
  · rw [toLower_upper h]
    apply toLower_other
    rw [toNat_ofNat_of_valid (Or.inl (by omega))]
    omega
  · rw [toLower_other h, toLower_other h]

lemma pyIsSpace_cases {c : Char} (h : pyIsSpace c = true) :
    c = ' ' ∨ c = '\t' ∨ c = '\n' ∨ c = '\r' ∨ c = '\x0b' ∨ c = '\x0c' := by
  simp only [pyIsSpace, Bool.or_eq_true, decide_eq_true_eq] at h
  tauto

lemma pyIsSpace_toLower {c : Char} (h : pyIsSpace c = true) : c.toLower = c := by
  rcases pyIsSpace_cases h with h | h | h | h | h | h <;> subst h <;> decide

lemma pyIsDigit_le {c : Char} (h : pyIsDigit c = true) :
    48 ≤ c.toNat ∧ c.toNat ≤ 57 := by
  have h' : '0' ≤ c ∧ c ≤ '9' := by simpa [pyIsDigit] using h
  exact ⟨h'.1, h'.2⟩

lemma pyIsDigit_toLower {c : Char} (h : pyIsDigit c = true) : c.toLower = c := by
  have := pyIsDigit_le h
  apply toLower_other
  omega

lemma pyIsDigit_not_space {c : Char} (h : pyIsDigit c = true) :
    pyIsSpace c = false := by
  rcases hb : pyIsSpace c with _ | _
  · rfl
  · exfalso
    rcases pyIsSpace_cases hb with h' | h' | h' | h' | h' | h' <;> subst h' <;>
      exact absurd h (by decide)

/-! ## Lemmas about `pyStrip` -/

lemma dropWhile_cons_of_false {p : Char → Bool} {a : Char} {l : List Char}
    (h : p a = false) : List.dropWhile p (a :: l) = a :: l := by
  simp [List.dropWhile_cons, h]

lemma dropWhile_head_false {p : Char → Bool} :
    ∀ (t : List Char) {x : Char} {xs : List Char},
      List.dropWhile p t = x :: xs → p x = false := by
  intro t
  induction t with
  | nil => intro x xs h; exact absurd h (by simp)
  | cons a u ih =>
    intro x xs h
    rw [List.dropWhile_cons] at h
    by_cases ha : p a = true
    · rw [if_pos ha] at h; exact ih h
    · rw [if_neg ha] at h
      rcases List.cons_eq_cons.mp h with ⟨h1, _⟩
      subst h1
      simpa using ha

lemma dropWhile_dropWhile (p : Char → Bool) (l : List Char) :
    List.dropWhile p (List.dropWhile p l) = List.dropWhile p l := by
  rcases h : List.dropWhile p l with _ | ⟨x, xs⟩
  · rfl
  · exact dropWhile_cons_of_false (dropWhile_head_false l h)

/-- Removing the maximal whitespace suffix, the second half of `str.strip()`. -/
def revDrop (p : Char → Bool) (l : List Char) : List Char :=
  (l.reverse.dropWhile p).reverse

lemma pyStrip_eq_revDrop (l : List Char) :
    pyStrip l = revDrop pyIsSpace (l.dropWhile pyIsSpace) := rfl

lemma revDrop_revDrop (p : Char → Bool) (l : List Char) :
    revDrop p (revDrop p l) = revDrop p l := by
  unfold revDrop
  rw [List.reverse_reverse, dropWhile_dropWhile]

lemma revDrop_pref (p : Char → Bool) (l : List Char) : revDrop p l <+: l := by
  apply List.reverse_suffix.mp
  rw [show (revDrop p l).reverse = l.reverse.dropWhile p from by simp [revDrop]]
  exact List.dropWhile_suffix p

lemma dropWhile_revDrop (p : Char → Bool) (l : List Char) :
    List.dropWhile p (revDrop p l) = revDrop p (List.dropWhile p l) := by
  induction l with
  | nil => rfl
  | cons a t ih =>
    rcases ha : p a with _ | _
    · -- the head survives both trims
      rw [dropWhile_cons_of_false ha]
      rcases hr : revDrop p (a :: t) with _ | ⟨x, xs⟩
      · -- `revDrop` can only be empty if every element satisfies `p`; but ¬p a
        exfalso
        have h1 : List.dropWhile p (a :: t).reverse = [] := by
          have := congrArg List.reverse hr
          simpa [revDrop] using this
        have h2 := List.dropWhile_eq_nil_iff.mp h1 a (by simp)
        rw [ha] at h2
        exact absurd h2 (by simp)
      · have hx : x = a := by
          have hpre : revDrop p (a :: t) <+: a :: t := revDrop_pref p (a :: t)
          rw [hr] at hpre
          rcases hpre with ⟨s, hs⟩
          exact (List.cons_eq_cons.mp hs.symm).1.symm
        subst hx
        rw [← hr]
        rw [hr]
        exact dropWhile_cons_of_false ha
    · -- the head is trimmed on the left
      have hstep : revDrop p (a :: t) =
          if (t.reverse.dropWhile p).isEmpty then (List.dropWhile p [a]).reverse
          else a :: revDrop p t := by
        unfold revDrop
        rw [show (a :: t).reverse = t.reverse ++ [a] from by simp,
          List.dropWhile_append]
        split
        · rfl
        · simp
      rw [List.dropWhile_cons, if_pos ha, hstep]
      rcases he : (t.reverse.dropWhile p).isEmpty with _ | _
      · rw [if_neg Bool.false_ne_true]
        rw [List.dropWhile_cons, if_pos ha]
        exact ih
      · rw [if_pos rfl]
        have ht : List.dropWhile p t = [] := by
          apply List.dropWhile_eq_nil_iff.mpr
          intro x hx
          have h1 : t.reverse.dropWhile p = [] := List.isEmpty_iff.mp he
          exact List.dropWhile_eq_nil_iff.mp h1 x (by simpa using hx)
        rw [ht]
        rw [show List.dropWhile p [a] = [] from by
          rw [List.dropWhile_cons, if_pos ha]; rfl]
        rfl

lemma pyStrip_idem (l : List Char) : pyStrip (pyStrip l) = pyStrip l := by
  rw [pyStrip_eq_revDrop, pyStrip_eq_revDrop, dropWhile_revDrop,
    dropWhile_dropWhile, revDrop_revDrop]

lemma pyStrip_nil_of_all_space {l : List Char}
    (h : ∀ c ∈ l, pyIsSpace c = true) : pyStrip l = [] := by
  unfold pyStrip
  rw [List.dropWhile_eq_nil_iff.mpr h]
  rfl

lemma pyStrip_subset {l : List Char} : ∀ c ∈ pyStrip l, c ∈ l := by
  intro c hc
  rw [pyStrip_eq_revDrop] at hc
  exact (List.dropWhile_suffix pyIsSpace).subset
    ((revDrop_pref pyIsSpace _).subset hc)

/-! ## Normalization lemmas -/

lemma normalizeData_idem (q : String) :
    normalizeData (normalizeQ q) = normalizeData q := by
  unfold normalizeQ normalizeData
  show pyStrip ((pyStrip (q.data.map Char.toLower)).map Char.toLower) = _
  have hmap : (pyStrip (q.data.map Char.toLower)).map Char.toLower =
      pyStrip (q.data.map Char.toLower) := by
    rw [List.map_congr_left (g := id) ?_, List.map_id]
    intro c hc
    rcases List.mem_map.mp (pyStrip_subset c hc) with ⟨d, _, hd⟩
    rw [← hd]
    exact toLower_idem d
  rw [hmap, pyStrip_idem]

/-! ## Non-emptiness of every rule output -/

lemma append_ne_empty_left {a : String} (h : a ≠ "") (b : String) :
    a ++ b ≠ "" := by
  intro he
  apply h
  have h2 := congrArg String.data he
  rw [String.data_append] at h2
  exact String.ext (List.append_eq_nil.mp h2).1

lemma quantityTemplate_ne_empty (n : String) : quantityTemplate n ≠ "" := by
  unfold quantityTemplate
  repeat apply append_ne_empty_left
  decide

lemma moreThanTemplate_ne_empty (n : String) : moreThanTemplate n ≠ "" := by
  unfold moreThanTemplate
  repeat apply append_ne_empty_left
  decide

lemma betweenTemplate_ne_empty (s e : String) : betweenTemplate s e ≠ "" := by
  unfold betweenTemplate
  repeat apply append_ne_empty_left
  decide

lemma ruleSet_output_ne_empty {r : List Char → Option String} (hr : r ∈ ruleSet)
    {q : List Char} {t : String} (h : r q = some t) : t ≠ "" := by
  fin_cases hr
  · rw [ruleCountUsers] at h
    split at h
    · cases h; decide
    · exact Option.noConfusion h
  · rw [ruleTotalRevenue] at h
    split at h
    · cases h; decide
    · exact Option.noConfusion h
  · rw [ruleHighestRevenueCategory] at h
    split at h
    · cases h; decide
    · exact Option.noConfusion h
  · rw [ruleTopCustomers] at h
    split at h
    · cases h; decide
    · exact Option.noConfusion h
  · rw [rulePopularProducts] at h
    split at h
    · cases h; decide
    · exact Option.noConfusion h
  · rw [ruleRevenueOverTime] at h
    split at h
    · cases h; decide
    · exact Option.noConfusion h
  · rw [ruleOrdersPerDay] at h
    split at h
    · cases h; decide
    · exact Option.noConfusion h
  · rw [ruleMonthlyRevenue] at h
    split at h
    · cases h; decide
    · exact Option.noConfusion h
  · rw [ruleQuantityFilter] at h
    split at h
    · rcases Option.map_eq_some'.mp h with ⟨n, hn, rfl⟩
      exact quantityTemplate_ne_empty _
    · exact Option.noConfusion h
  · rw [ruleCompareUsers] at h
    split at h
    · cases h; decide
    · exact Option.noConfusion h
  · rw [ruleUsersMoreThan] at h
    split at h
    · rcases Option.map_eq_some'.mp h with ⟨n, hn, rfl⟩
      exact moreThanTemplate_ne_empty _
    · exact Option.noConfusion h
  · rw [ruleOrdersBetween] at h
    split at h
    · rcases Option.map_eq_some'.mp h with ⟨n, hn, rfl⟩
      exact betweenTemplate_ne_empty _ _
    · exact Option.noConfusion h
  · rw [ruleOrdersByCategory] at h
    split at h
    · cases h; decide
    · exact Option.noConfusion h
  · rw [ruleUsersBySignup] at h
    split at h
    · cases h; decide
    · exact Option.noConfusion h

lemma generate_ne_empty (q : String) : generate_sql_from_template q ≠ "" := by
  unfold generate_sql_from_template
  rcases hf : firstSome ruleSet (normalizeData q) with _ | t
  · decide
  · rcases firstSome_eq_some_mem hf with ⟨r, hr, he⟩
    exact ruleSet_output_ne_empty hr he

/-! ## The claims -/

/-- **C2** (confirmed).  For every question string `q` and every schema
string `s`, `local_generate_sql q s` equals `generate_sql_from_template q`:
the template resolver always returns a non-empty (truthy) string — including
the sentinel comment on no match — so the truthiness guard in
`local_generate_sql` makes the generative-model fallback branch unreachable
for all inputs (here quantified also over every possible model response
`resp`). -/
theorem spec_C2_fallback_unreachable :
    (∀ q : String, generate_sql_from_template q ≠ "") ∧
      ∀ (resp : Option String) (q s : String),
        local_generate_sql resp q s = generate_sql_from_template q := by
  refine ⟨generate_ne_empty, ?_⟩
  intro resp q s
  unfold local_generate_sql
  rw [if_neg (generate_ne_empty q)]

/-- **C10** (confirmed).  The rule resolver is a total pure function of its
string argument (it is modelled as a plain Lean function `String → String`,
with no I/O, no schema argument and no error outcome), and for every
well-formed string input it returns either some rule's rendered query or the
NoMatch sentinel. -/
theorem spec_C10_resolver_total (q : String) :
    generate_sql_from_template q = noMatchSentinel ∨
      ∃ r ∈ ruleSet, r (normalizeData q) = some (generate_sql_from_template q) := by
  rcases hf : firstSome ruleSet (normalizeData q) with _ | t
  · left
    unfold generate_sql_from_template
    rw [hf]
  · right
    rcases firstSome_eq_some_mem hf with ⟨r, hr, he⟩
    refine ⟨r, hr, ?_⟩
    unfold generate_sql_from_template
    rw [hf]
    exact he

/-- **C9** (confirmed).  Normalization (ASCII case-folding followed by
whitespace-trimming, as applied by the resolver) is idempotent: normalizing
an already-normalized question yields the same string, so a second
normalization pass cannot alter matching semantics. -/
theorem spec_C9_normalize_idempotent (q : String) :
    normalizeQ (normalizeQ q) = normalizeQ q :=
  congrArg String.mk (normalizeData_idem q)

/-- **C1** (code bug).  On `"asdkjasd random text"` the resolver returns the
NoMatch sentinel, yet `local_generate_sql` returns that very sentinel for
every possible model response: the fallback generator is never invoked
(the sentinel is truthy), the pipeline's final output *is* the sentinel
string, and it differs from the fixed default query — contradicting the
claim (and the source's own comment `# If not matched, fallback to GPT-2`). -/
theorem spec_C1_sentinel_passes_through :
    generate_sql_from_template "asdkjasd random text" = noMatchSentinel ∧
      (∀ (resp : Option String) (s : String),
        local_generate_sql resp "asdkjasd random text" s = noMatchSentinel) ∧
      noMatchSentinel ≠ defaultQuery := by
  have h1 : generate_sql_from_template "asdkjasd random text" = noMatchSentinel := by
    decide
  refine ⟨h1, ?_, by decide⟩
  intro resp s
  unfold local_generate_sql
  rw [h1, if_neg (by decide)]

/-- **C8** (code bug).  For the empty-string question and every
whitespace-only question the resolver deterministically returns the NoMatch
sentinel — but the pipeline then returns the sentinel itself, not the fixed
default query: the fallback is unreachable, so the "fallback still returns
the fixed default query" part of the claim fails on the code (the output is
nonetheless non-empty and no error is possible). -/
theorem spec_C8_whitespace_only (q : String)
    (h : ∀ c ∈ q.data, pyIsSpace c = true) :
    generate_sql_from_template q = noMatchSentinel ∧
      (∀ (resp : Option String) (s : String),
        local_generate_sql resp q s = noMatchSentinel) ∧
      noMatchSentinel ≠ defaultQuery ∧ noMatchSentinel ≠ "" := by
  have hnil : normalizeData q = [] := by
    apply pyStrip_nil_of_all_space
    intro c hc
    rcases List.mem_map.mp hc with ⟨d, hd, rfl⟩
    rw [pyIsSpace_toLower (h _ hd)]
    exact h _ hd
  have hg : generate_sql_from_template q = noMatchSentinel := by
    unfold generate_sql_from_template
    rw [hnil]
    rfl
  refine ⟨hg, ?_, by decide, by decide⟩
  intro resp s
  unfold local_generate_sql
  rw [hg, if_neg (by decide)]

/-- Witness for C8 at the concrete whitespace-only question `" "`. -/
theorem spec_C8_whitespace_only_witness :
    generate_sql_from_template " " = noMatchSentinel ∧
      (∀ (resp : Option String) (s : String),
        local_generate_sql resp " " s = noMatchSentinel) ∧
      noMatchSentinel ≠ defaultQuery ∧ noMatchSentinel ≠ "" :=
  spec_C8_whitespace_only " " (by decide)

/-- **C3**, counterexample.  `"how many users"` matches the first rule, yet
when schema introspection fails the endpoint returns an error response, not
the rule's query: `ask_data` invokes `get_schema_metadata` before resolution,
so the claim "resolution succeeds even when schema introspection would fail"
is false on the code. -/
theorem spec_C3_counterexample :
    generate_sql_from_template "how many users" = countUsersQuery ∧
      ask_data (Except.error "SchemaUnavailable") none "how many users" =
        AskOutcome.errorResp "SchemaUnavailable" :=
  ⟨by decide, rfl⟩

/-- **C3** (corrected).  The resolver itself performs no schema access (it is
a function of the question alone), but `ask_data` fetches schema metadata
unconditionally *before* resolution: an introspection failure is fatal to
every question — rule-matched ones included — and only when introspection
succeeds does a rule-matched question yield its rendered query. -/
theorem spec_C3_schema_fetched_first :
    (∀ (e : String) (resp : Option String) (q : String),
        ask_data (Except.error e) resp q = AskOutcome.errorResp e) ∧
      ∀ (schema : String) (resp : Option String) (q t : String),
        firstSome ruleSet (normalizeData q) = some t →
        (litP "-- No matching SQL".data (pyStrip t.data)).isSome = false →
        ask_data (Except.ok schema) resp q = AskOutcome.result t := by
  constructor
  · intro e resp q
    rfl
  · intro schema resp q t hmatch hpre
    have hg : generate_sql_from_template q = t := by
      unfold generate_sql_from_template
      rw [hmatch]
    have hne : t ≠ "" := hg ▸ generate_ne_empty q
    have hl : local_generate_sql resp q schema = t := by
      unfold local_generate_sql
      rw [hg, if_neg hne]
    show (let sql := local_generate_sql resp q schema
      if (litP "-- No matching SQL".data (pyStrip sql.data)).isSome then
        AskOutcome.message (pyStripS sql)
      else AskOutcome.result sql) = AskOutcome.result t
    rw [hl]
    simp only [hpre, Bool.false_eq_true, if_false]

/-- Witness for C3's corrected statement: with a live schema the rule-matched
question resolves to the count-of-users query; with a failed introspection it
is an error response. -/
theorem spec_C3_schema_fetched_first_witness :
    ask_data (Except.error "boom") none "how many users" =
        AskOutcome.errorResp "boom" ∧
      ask_data (Except.ok "") none "how many users" =
        AskOutcome.result countUsersQuery :=
  ⟨spec_C3_schema_fetched_first.1 "boom" none "how many users",
   spec_C3_schema_fetched_first.2 "" none "how many users" countUsersQuery
     (by decide) (by decide)⟩

/-- **C4**, counterexample.  The trigger vocabulary `orders per day` occurs
inside the larger word `disorders` in `"disorders per day"`, yet the
orders-per-day rule *does* match (naive substring search) and returns its
query — the claim that word-boundary matching prevents this is false on the
code. -/
theorem spec_C4_counterexample :
    generate_sql_from_template "disorders per day" = ordersPerDayQuery ∧
      ordersPerDayQuery ≠ noMatchSentinel :=
  ⟨by decide, by decide⟩

/-- **C4** (corrected).  Recognition is naive substring/regex search without
word boundaries: whenever the normalized question contains the literal
`orders per day` — even inside a larger word — and no earlier rule fires,
the orders-per-day rule matches and its query is returned. -/
theorem spec_C4_substring_match (q : String)
    (h7 : rOrdersPerDay (normalizeData q) = true)
    (h1 : rCountUsers (normalizeData q) = false)
    (h2 : rTotalRevenue (normalizeData q) = false)
    (h3 : rHighestRevenueCategory (normalizeData q) = false)
    (h4 : rTopCustomers (normalizeData q) = false)
    (h5 : rPopularProducts (normalizeData q) = false)
    (h6 : rRevenueOverTime (normalizeData q) = false) :
    generate_sql_from_template q = ordersPerDayQuery := by
  simp only [generate_sql_from_template, ruleSet, firstSome, ruleCountUsers,
    ruleTotalRevenue, ruleHighestRevenueCategory, ruleTopCustomers,
    rulePopularProducts, ruleRevenueOverTime, ruleOrdersPerDay,
    h1, h2, h3, h4, h5, h6, h7, Bool.false_eq_true, if_false, if_true]

/-- Witness for C4's corrected statement at `"disorders per day"`. -/
theorem spec_C4_substring_match_witness :
    generate_sql_from_template "disorders per day" = ordersPerDayQuery :=
  spec_C4_substring_match "disorders per day" (by decide) (by decide) (by decide)
    (by decide) (by decide) (by decide) (by decide)

/-- **C6** (confirmed).  Rule precedence is first-match-wins in declared
order: if rule `i` is the first rule matching the normalized question and a
later rule `j` also matches, the resolver's result is rule `i`'s rendered
output, and evaluation short-circuits at rule `i` — the rules after position
`i` are irrelevant (`firstSome` over just the first `i + 1` rules already
yields the result). -/
theorem spec_C6_precedence (q : String) (i j : Nat) (A : String)
    (hi : i < ruleSet.length) (hj : j < ruleSet.length) (hij : i < j)
    (hfirst : firstSome (ruleSet.take i) (normalizeData q) = none)
    (hA : ruleSet[i] (normalizeData q) = some A)
    (hB : (ruleSet[j] (normalizeData q)).isSome = true) :
    generate_sql_from_template q = A ∧
      firstSome (ruleSet.take (i + 1)) (normalizeData q) = some A := by
  have key : firstSome ruleSet (normalizeData q) = some A := by
    conv_lhs => rw [← List.take_append_drop i ruleSet]
    rw [firstSome_append_none hfirst, List.drop_eq_getElem_cons hi, firstSome, hA]
  constructor
  · unfold generate_sql_from_template
    rw [key]
  · rw [List.take_succ, List.getElem?_eq_getElem hi]
    rw [firstSome_append_none hfirst]
    show (match ruleSet[i] (normalizeData q) with
      | some t => some t
      | none => firstSome [] (normalizeData q)) = some A
    rw [hA]

/-- Witness for C6: `"top customers by revenue per category"` satisfies both
the highest-revenue-category rule (declared third) and the top-customers
rule (declared fourth); the resolver returns the third rule's query. -/
theorem spec_C6_precedence_witness :
    generate_sql_from_template "top customers by revenue per category" =
        highestRevenueCategoryQuery ∧
      firstSome (ruleSet.take 3)
          (normalizeData "top customers by revenue per category") =
        some highestRevenueCategoryQuery :=
  spec_C6_precedence "top customers by revenue per category" 2 3
    highestRevenueCategoryQuery (by decide) (by decide) (by decide)
    (by decide) (by decide) (by decide)

lemma litP_eq_some : ∀ {xs s r : List Char}, litP xs s = some r → s = xs ++ r := by
  intro xs
  induction xs with
  | nil =>
    intro s r h
    simp only [litP, Option.some.injEq] at h
    rw [h, List.nil_append]
  | cons c cs ih =>
    intro s r h
    cases s with
    | nil => exact Option.noConfusion h
    | cons d ds =>
      simp only [litP] at h
      by_cases hcd : c = d
      · rw [if_pos hcd] at h
        subst hcd
        rw [List.cons_append, ← ih h]
      · rw [if_neg hcd] at h
        exact Option.noConfusion h

/-- The recognition condition of the quantity rule guarantees a capture:
`with quantity\s+>\s*\d+` contains `quantity\s*>\s*\d+`, so `re.findall`
always finds at least one number and the missing-capture branch of that rule
is unreachable. -/
lemma rQuantityFilter_extract {q : List Char} (h : rQuantityFilter q = true) :
    (extractQuantityNum q).isSome = true := by
  rcases (scanB_iff _ _).mp h with ⟨t, ht, hp⟩
  unfold matchQuantityAt at hp
  rcases hlit : litP "with quantity".data t with _ | rest
  · rw [hlit] at hp
    simp at hp
  · rw [hlit] at hp
    rcases rest with _ | ⟨c, cs⟩
    · simp at hp
    · simp only [Bool.and_eq_true] at hp
      obtain ⟨hc, hp2⟩ := hp
      rcases hdw : (c :: cs).dropWhile pyIsSpace with _ | ⟨d, ds⟩
      · rw [hdw] at hp2
        simp at hp2
      · rw [hdw] at hp2
        simp only [Bool.and_eq_true, decide_eq_true_eq] at hp2
        obtain ⟨hd, hp3⟩ := hp2
        subst hd
        rcases he : ds.dropWhile pyIsSpace with _ | ⟨e, es⟩
        · rw [he] at hp3
          simp at hp3
        · rw [he] at hp3
          simp only at hp3
          have ht' : ("quantity".data ++ (c :: cs)) <:+ q := by
            apply List.IsSuffix.trans _ ht
            refine ⟨"with ".data, ?_⟩
            rw [litP_eq_some hlit]
            rfl
          apply (scanFirst_isSome_iff _ _).mpr
          refine ⟨"quantity".data ++ (c :: cs), ht', ?_⟩
          unfold quantityCapAt
          rw [litP_self_append]
          simp [hdw, he, List.takeWhile_cons, hp3]

/-- **C5**, counterexample.  On `"orders between  and x"` the date-range
rule's recognition condition matches while its capture extraction is empty
(`(.+?)` needs a non-empty first group), and the resolver returns the
NoMatch sentinel: no rule renders a template with any default value, and no
default value `1` exists anywhere. -/
theorem spec_C5_counterexample :
    rOrdersBetween (normalizeData "orders between  and x") = true ∧
      extractBetween (normalizeData "orders between  and x") = none ∧
      generate_sql_from_template "orders between  and x" = noMatchSentinel :=
  ⟨by decide, by decide, by decide⟩

/-- **C5** (corrected).  When a rule's recognition condition matches but the
expected capture is absent, the rule yields no output and resolution falls
through to the remaining rules — no default value is substituted.  For the
quantity rule the missing-capture case is unreachable: its recognition
condition guarantees that the capture pattern finds a number. -/
theorem spec_C5_missing_capture_falls_through :
    (∀ q : List Char, rOrdersBetween q = true → extractBetween q = none →
        ruleOrdersBetween q = none) ∧
      ∀ q : List Char, rQuantityFilter q = true →
        (extractQuantityNum q).isSome = true := by
  constructor
  · intro q h1 h2
    unfold ruleOrdersBetween
    rw [if_pos h1, h2]
    rfl
  · intro q h
    exact rQuantityFilter_extract h

/-- Witness for C5's corrected statement: the date-range rule falls through
on `"orders between  and x"`, and the quantity rule's capture is present on
`"orders with quantity > 5"`. -/
theorem spec_C5_missing_capture_witness :
    ruleOrdersBetween (normalizeData "orders between  and x") = none ∧
      (extractQuantityNum (normalizeData "orders with quantity > 5")).isSome = true :=
  ⟨spec_C5_missing_capture_falls_through.1 _ (by decide) (by decide),
   spec_C5_missing_capture_falls_through.2 _ (by decide)⟩

/-! ## C7: parameter extraction for `orders with quantity > N` -/

lemma litP_none_of_digits (needle : List Char) (x : Char) (hx : x ∈ needle)
    (hxd : pyIsDigit x = false) {t : List Char}
    (ht : ∀ c ∈ t, pyIsDigit c = true) : litP needle t = none := by
  rcases h : litP needle t with _ | r
  · rfl
  · exfalso
    have he := litP_eq_some h
    have hmem : x ∈ t := he ▸ List.mem_append.mpr (Or.inl hx)
    rw [ht x hmem] at hxd
    exact Bool.noConfusion hxd

lemma hasSub_false_of_digits (needle : List Char) (x : Char) (hx : x ∈ needle)
    (hxd : pyIsDigit x = false) {l : List Char}
    (hl : ∀ c ∈ l, pyIsDigit c = true) : hasSub needle l = false := by
  apply scanB_eq_false
  intro t ht
  show (litP needle t).isSome = false
  rw [litP_none_of_digits needle x hx hxd (fun c hc => hl c (ht.subset hc))]
  rfl

lemma rCountUsers_digits {l : List Char} (hl : ∀ c ∈ l, pyIsDigit c = true) :
    rCountUsers l = false := by
  apply scanB_eq_false
  intro t ht
  have ht' : ∀ c ∈ t, pyIsDigit c = true := fun c hc => hl c (ht.subset hc)
  unfold matchCountUsersAt
  rw [litP_none_of_digits "how many".data 'h' (by decide) (by decide) ht',
    litP_none_of_digits "number of".data 'n' (by decide) (by decide) ht']

lemma rTotalRevenue_digits {l : List Char} (hl : ∀ c ∈ l, pyIsDigit c = true) :
    rTotalRevenue l = false :=
  hasSub_false_of_digits _ 't' (by decide) (by decide) hl

lemma rHighestRevenueCategory_digits {l : List Char}
    (hl : ∀ c ∈ l, pyIsDigit c = true) : rHighestRevenueCategory l = false := by
  have hs : scanB matchHighRevCatAt l = false := by
    apply scanB_eq_false
    intro t ht
    have ht' : ∀ c ∈ t, pyIsDigit c = true := fun c hc => hl c (ht.subset hc)
    unfold matchHighRevCatAt
    rw [litP_none_of_digits "highest".data 'h' (by decide) (by decide) ht',
      litP_none_of_digits "top".data 't' (by decide) (by decide) ht']
  unfold rHighestRevenueCategory
  rw [hs, hasSub_false_of_digits _ 'w' (by decide) (by decide) hl]
  rfl

lemma rTopCustomers_digits {l : List Char} (hl : ∀ c ∈ l, pyIsDigit c = true) :
    rTopCustomers l = false := by
  apply scanB_eq_false
  intro t ht
  have ht' : ∀ c ∈ t, pyIsDigit c = true := fun c hc => hl c (ht.subset hc)
  unfold matchTopCustomersAt
  rw [litP_none_of_digits "top".data 't' (by decide) (by decide) ht']

lemma rPopularProducts_digits {l : List Char} (hl : ∀ c ∈ l, pyIsDigit c = true) :
    rPopularProducts l = false := by
  unfold rPopularProducts
  rw [hasSub_false_of_digits _ 'm' (by decide) (by decide) hl,
    hasSub_false_of_digits _ 't' (by decide) (by decide) hl]
  rfl

lemma rRevenueOverTime_digits {l : List Char} (hl : ∀ c ∈ l, pyIsDigit c = true) :
    rRevenueOverTime l = false :=
  hasSub_false_of_digits _ 'r' (by decide) (by decide) hl

lemma rOrdersPerDay_digits {l : List Char} (hl : ∀ c ∈ l, pyIsDigit c = true) :
    rOrdersPerDay l = false :=
  hasSub_false_of_digits _ 'o' (by decide) (by decide) hl

lemma rMonthlyRevenue_digits {l : List Char} (hl : ∀ c ∈ l, pyIsDigit c = true) :
    rMonthlyRevenue l = false :=
  hasSub_false_of_digits _ 'm' (by decide) (by decide) hl

/-! The eight rules declared before the quantity rule ignore the concrete
prefix `orders with quantity > `: their patterns fail at every position
inside it, so searching the whole question equals searching the digit
tail (definitional equalities, checked by the kernel). -/

lemma rCountUsers_skip (n : List Char) :
    rCountUsers ("orders with quantity > ".data ++ n) = rCountUsers n := rfl

lemma rTotalRevenue_skip (n : List Char) :
    rTotalRevenue ("orders with quantity > ".data ++ n) = rTotalRevenue n := rfl

lemma rHighestRevenueCategory_skip (n : List Char) :
    rHighestRevenueCategory ("orders with quantity > ".data ++ n) =
      rHighestRevenueCategory n := rfl

lemma rTopCustomers_skip (n : List Char) :
    rTopCustomers ("orders with quantity > ".data ++ n) = rTopCustomers n := rfl

lemma rPopularProducts_skip (n : List Char) :
    rPopularProducts ("orders with quantity > ".data ++ n) =
      rPopularProducts n := rfl

lemma rRevenueOverTime_skip (n : List Char) :
    rRevenueOverTime ("orders with quantity > ".data ++ n) =
      rRevenueOverTime n := rfl

lemma rOrdersPerDay_skip (n : List Char) :
    rOrdersPerDay ("orders with quantity > ".data ++ n) = rOrdersPerDay n := rfl

lemma rMonthlyRevenue_skip (n : List Char) :
    rMonthlyRevenue ("orders with quantity > ".data ++ n) =
      rMonthlyRevenue n := rfl

lemma scanFirst_cons_some {α : Type} (p : List Char → Option α) (x : Char)
    (rest : List Char) {v : α} (h : p (x :: rest) = some v) :
    scanFirst p (x :: rest) = some v := by
  simp only [scanFirst, h]

lemma map_toLower_digits {l : List Char} (hl : ∀ c ∈ l, pyIsDigit c = true) :
    List.map Char.toLower l = l := by
  induction l with
  | nil => rfl
  | cons c m ih =>
    rw [List.map_cons, pyIsDigit_toLower (hl c (List.mem_cons_self _ _)),
      ih (fun d hd => hl d (List.mem_cons_of_mem _ hd))]

lemma dropWhile_space_digits {l : List Char}
    (hl : ∀ c ∈ l, pyIsDigit c = true) :
    List.dropWhile pyIsSpace l = l := by
  cases l with
  | nil => rfl
  | cons c cs =>
    exact dropWhile_cons_of_false (pyIsDigit_not_space (hl c (List.mem_cons_self _ _)))

lemma pyStrip_eq_self_of_ends {x : Char} {xs : List Char} {y : Char}
    {ys : List Char} {l : List Char} (hl : l = x :: xs) (hrev : l.reverse = y :: ys)
    (hx : pyIsSpace x = false) (hy : pyIsSpace y = false) : pyStrip l = l := by
  unfold pyStrip
  rw [hl, dropWhile_cons_of_false hx, ← hl, hrev, dropWhile_cons_of_false hy,
    ← hrev, List.reverse_reverse]

/-- **C7** (confirmed).  For every question of the form
`orders with quantity > N`, with `N` a non-empty string of decimal digits,
the resolver matches the quantity-threshold rule and renders its template
with exactly the literal `N` as the WHERE-clause threshold. -/
theorem spec_C7_quantity_threshold (n : List Char) (hne : n ≠ [])
    (hdig : ∀ c ∈ n, pyIsDigit c = true) :
    generate_sql_from_template
        (String.mk ("orders with quantity > ".data ++ n)) =
      quantityTemplate (String.mk n) := by
  -- normalization is the identity here: all lower case, non-space at both ends
  have hlower : ("orders with quantity > ".data ++ n).map Char.toLower =
      "orders with quantity > ".data ++ n := by
    rw [List.map_append, map_toLower_digits hdig,
      show "orders with quantity > ".data.map Char.toLower =
        "orders with quantity > ".data from by decide]
  have hstrip : pyStrip ("orders with quantity > ".data ++ n) =
      "orders with quantity > ".data ++ n := by
    rcases hnr : n.reverse with _ | ⟨y, ys⟩
    · exact absurd (List.reverse_eq_nil_iff.mp hnr) hne
    · have hy : pyIsDigit y = true := by
        apply hdig
        rw [← List.mem_reverse, hnr]
        exact List.mem_cons_self _ _
      have hcons : ("orders with quantity > ".data ++ n : List Char) =
          'o' :: ("rders with quantity > ".data ++ n) := rfl
      have hrev2 : ("orders with quantity > ".data ++ n).reverse =
          y :: (ys ++ "orders with quantity > ".data.reverse) := by
        rw [List.reverse_append, hnr]
        rfl
      exact pyStrip_eq_self_of_ends hcons hrev2 (by decide)
        (pyIsDigit_not_space hy)
  have hnorm : normalizeData (String.mk ("orders with quantity > ".data ++ n)) =
      "orders with quantity > ".data ++ n := by
    unfold normalizeData
    show pyStrip (("orders with quantity > ".data ++ n).map Char.toLower) = _
    rw [hlower]
    exact hstrip
  -- the digit facts
  have hdw : List.dropWhile pyIsSpace n = n := dropWhile_space_digits hdig
  have htw : List.takeWhile pyIsDigit n = n :=
    List.takeWhile_eq_self_iff.mpr hdig
  have hie : ¬(n.isEmpty = true) := fun h => hne (List.isEmpty_iff.mp h)
  -- recognition fires
  have hq9 : rQuantityFilter ("orders with quantity > ".data ++ n) = true := by
    unfold rQuantityFilter
    apply (scanB_iff _ _).mpr
    refine ⟨"with quantity > ".data ++ n, ⟨"orders ".data, rfl⟩, ?_⟩
    have hstep : matchQuantityAt ("with quantity > ".data ++ n) =
        (match List.dropWhile pyIsSpace n with
         | [] => false
         | e :: _ => pyIsDigit e) := rfl
    rw [hstep, hdw]
    rcases n with _ | ⟨e, m⟩
    · exact absurd rfl hne
    · exact hdig e (List.mem_cons_self _ _)
  -- the capture is the whole digit run
  have hcap : quantityCapAt ("quantity > ".data ++ n) = some n := by
    have hstep : quantityCapAt ("quantity > ".data ++ n) =
        (if (List.takeWhile pyIsDigit (List.dropWhile pyIsSpace n)).isEmpty
         then none
         else some (List.takeWhile pyIsDigit (List.dropWhile pyIsSpace n))) := rfl
    rw [hstep, hdw, htw, if_neg hie]
  have hext : extractQuantityNum ("orders with quantity > ".data ++ n) = some n := by
    have h0 : extractQuantityNum ("orders with quantity > ".data ++ n) =
        scanFirst quantityCapAt ("quantity > ".data ++ n) := rfl
    rw [h0]
    exact scanFirst_cons_some quantityCapAt 'q' ("uantity > ".data ++ n) hcap
  -- the eight earlier rules all fall through
  have h1 : ruleCountUsers ("orders with quantity > ".data ++ n) = none := by
    unfold ruleCountUsers
    rw [rCountUsers_skip, rCountUsers_digits hdig]
    rfl
  have h2 : ruleTotalRevenue ("orders with quantity > ".data ++ n) = none := by
    unfold ruleTotalRevenue
    rw [rTotalRevenue_skip, rTotalRevenue_digits hdig]
    rfl
  have h3 : ruleHighestRevenueCategory ("orders with quantity > ".data ++ n) = none := by
    unfold ruleHighestRevenueCategory
    rw [rHighestRevenueCategory_skip, rHighestRevenueCategory_digits hdig]
    rfl
  have h4 : ruleTopCustomers ("orders with quantity > ".data ++ n) = none := by
    unfold ruleTopCustomers
    rw [rTopCustomers_skip, rTopCustomers_digits hdig]
    rfl
  have h5 : rulePopularProducts ("orders with quantity > ".data ++ n) = none := by
    unfold rulePopularProducts
    rw [rPopularProducts_skip, rPopularProducts_digits hdig]
    rfl
  have h6 : ruleRevenueOverTime ("orders with quantity > ".data ++ n) = none := by
    unfold ruleRevenueOverTime
    rw [rRevenueOverTime_skip, rRevenueOverTime_digits hdig]
    rfl
  have h7 : ruleOrdersPerDay ("orders with quantity > ".data ++ n) = none := by
    unfold ruleOrdersPerDay
    rw [rOrdersPerDay_skip, rOrdersPerDay_digits hdig]
    rfl
  have h8 : ruleMonthlyRevenue ("orders with quantity > ".data ++ n) = none := by
    unfold ruleMonthlyRevenue
    rw [rMonthlyRevenue_skip, rMonthlyRevenue_digits hdig]
    rfl
  have h9 : ruleQuantityFilter ("orders with quantity > ".data ++ n) =
      some (quantityTemplate (String.mk n)) := by
    unfold ruleQuantityFilter
    rw [if_pos hq9, hext]
    rfl
  have hfs : firstSome ruleSet ("orders with quantity > ".data ++ n) =
      some (quantityTemplate (String.mk n)) := by
    simp only [ruleSet, firstSome, h1, h2, h3, h4, h5, h6, h7, h8, h9]
  unfold generate_sql_from_template
  rw [hnorm, hfs]

/-- Witness for C7 at the concrete threshold `N = 100` (Scenario 4). -/
theorem spec_C7_quantity_threshold_witness :
    generate_sql_from_template "orders with quantity > 100" =
      quantityTemplate "100" := by
  have h := spec_C7_quantity_threshold "100".data (by decide) (by decide)
  exact h

end InsightsEngine
